import Mathlib

/-!
Shallow embedding of `src/main.py` (class `AutoRestartPlugin`): a recurring
scheduler that periodically probes a host server object for a restart
capability and invokes it, together with its configuration resolution and
lifecycle handling.

Python exceptions are modelled explicitly: `Exc.typeError` stands for
`TypeError`, `Exc.error` for any other `Exception`, and `Exc.fatal` for a
`BaseException` that is not an `Exception` (and so is not caught by
`except Exception`).  Logging is modelled as an explicit trace of events.
The ambient environment variable `AUTORESTART_INTERVAL_SECONDS` is passed
as an explicit `Option String` parameter, and the host's configuration
source as an explicit `CfgSource`.
-/

/-- A Python exception, classified by how the handlers in `main.py` treat it. -/
inductive Exc where
  | typeError
  | error (msg : String)
  | fatal (msg : String)
deriving DecidableEq, Repr

/-- Whether the exception is caught by `except Exception`
(`TypeError` is a subclass of `Exception`; `Exc.fatal` models a
`BaseException` that is not an `Exception`). -/
def Exc.isException : Exc → Bool
  | .typeError => true
  | .error _ => true
  | .fatal _ => false

/-- One entry of the log trace, tagged with the logger method used. -/
inductive LogEvent where
  | info (msg : String)
  | warning (msg : String)
  | error (msg : String)
  | exc (msg : String)
deriving DecidableEq, Repr

/-- Whether a log event was emitted through `logger.warning`. -/
def LogEvent.isWarning : LogEvent → Bool
  | .warning _ => true
  | _ => false

/-- Characters `int()` strips around a numeric string. -/
def isPySpace (c : Char) : Bool :=
  c = ' ' || c = '\t' || c = '\n' || c = '\r'

/-- Fold an all-digit character list into the number it denotes. -/
def digitsToNat (l : List Char) : Option Nat :=
  match l with
  | [] => none
  | _ =>
    if l.all Char.isDigit then
      some (l.foldl (fun a c => a * 10 + (c.toNat - 48)) 0)
    else
      none

/-- Model of Python `int(s)` on an ASCII string: surrounding whitespace is
stripped, an optional sign is allowed, the rest must be decimal digits;
`none` models `int` raising `ValueError`. -/
def pyParseInt (s : String) : Option Int :=
  let t := ((s.data.dropWhile isPySpace).reverse.dropWhile isPySpace).reverse
  match t with
  | '+' :: rest => (digitsToNat rest).map Int.ofNat
  | '-' :: rest => (digitsToNat rest).map (fun n => -(Int.ofNat n))
  | l => (digitsToNat l).map Int.ofNat

/-- A Python value found under a config key, as seen by `int(...)`:
either an object already convertible to an integer (with that value),
a string (converted via `pyParseInt`), or a value `int()` raises on. -/
inductive PyPrim where
  | intV (n : Int)
  | strV (s : String)
  | nonIntable
deriving DecidableEq, Repr

/-- Model of Python `int(v)` on a config value; `none` models a raised
`TypeError`/`ValueError`. -/
def pyIntOf : PyPrim → Option Int
  | .intV n => some n
  | .strV s => pyParseInt s
  | .nonIntable => none

/-- The configuration object obtained from the server: either not a dict
(with its truthiness), or a dict recording the values under
`autorestart_interval_seconds` and `autorestart_interval_hours` (when the
keys are present) and whether any other key exists. -/
inductive Cfg where
  | nonDict (truthy : Bool)
  | dict (seconds hours : Option PyPrim) (otherKeys : Bool)
deriving DecidableEq, Repr

/-- Python truthiness of the config object (`if cfg:`): an empty dict is
falsy, a dict with any key is truthy. -/
def Cfg.truthy : Cfg → Bool
  | .nonDict t => t
  | .dict s h o => s.isSome || h.isSome || o

/-- How reading the server-side config tier goes: `got c` is the value bound
to `cfg` after the `get_config()` / `config`-attribute probe (`None` is
modelled as a falsy non-dict), `raises` models `get_config()` raising an
`Exception`. -/
inductive CfgSource where
  | got (c : Cfg)
  | raises (msg : String)
deriving DecidableEq, Repr

/-- The outcome of calling one primary candidate under its two calling
conventions: `oneArg` is the outcome of `cmd("restart")` and `twoArg` the
outcome of `cmd(server, "restart")` (`none` = the call returns normally). -/
structure Candidate where
  oneArg : Option Exc
  twoArg : Option Exc
deriving DecidableEq, Repr

/-- The host server object as probed by `_do_restart` and `_load_config`:
each field is `none` when `getattr` yields nothing callable under that
name.  Fallbacks are zero-argument, so their model is just the call's
outcome. -/
structure Server where
  dispatch_command : Option Candidate
  execute_command : Option Candidate
  console_command : Option Candidate
  run_command : Option Candidate
  shutdown : Option (Option Exc)
  stop : Option (Option Exc)
  cfgSource : CfgSource
deriving DecidableEq, Repr

/-- The mutable fields of `AutoRestartPlugin`.  The pending
`threading.Timer` is modelled by the delay it was armed with (`none` = no
timer); arming a new timer replaces (after cancelling) the old handle. -/
structure PluginState where
  server : Option Server
  hasLogger : Bool
  interval_seconds : Int
  timer : Option Int
  stopped : Bool
deriving DecidableEq, Repr

/-- `AutoRestartPlugin.DEFAULT_SECONDS = 6 * 60 * 60`. -/
def DEFAULT_SECONDS : Int := 6 * 60 * 60

/-- `AutoRestartPlugin.__init__`. -/
def initState : PluginState :=
  { server := none
    hasLogger := false
    interval_seconds := DEFAULT_SECONDS
    timer := none
    stopped := true }

/-- Step 2 of `_load_config`: the server-config tier.  Returns the new
interval (or `prev` retained) and the log emitted by this step. -/
def configStep (src : CfgSource) (prev : Int) : Int × List LogEvent :=
  match src with
  | .raises _ => (prev, [LogEvent.warning "Failed to read server config for AutoRestart:"])
  | .got c =>
    if c.truthy then
      match c with
      | .dict (some v) _ _ =>
        match pyIntOf v with
        | some n => (n, [LogEvent.info "Interval loaded from server config: seconds"])
        | none => (prev, [LogEvent.warning "Failed to read server config for AutoRestart:"])
      | .dict none (some v) _ =>
        match pyIntOf v with
        | some n => (n * 3600, [LogEvent.info "Interval loaded from server config: hours"])
        | none => (prev, [LogEvent.warning "Failed to read server config for AutoRestart:"])
      | _ => (prev, [])
    else
      (prev, [])

/-- `AutoRestartPlugin._load_config`: `env` is
`os.getenv("AUTORESTART_INTERVAL_SECONDS")`, `prev` the interval held
before the call.  Returns the interval after the call and the log. -/
def load_config (env : Option String) (src : CfgSource) (prev : Int) : Int × List LogEvent :=
  match env with
  | some s =>
    if s = "" then
      configStep src prev
    else
      match pyParseInt s with
      | some n => (n, [LogEvent.info "Interval loaded from env AUTORESTART_INTERVAL_SECONDS"])
      | none =>
        let r := configStep src prev
        (r.1, LogEvent.warning "Invalid AUTORESTART_INTERVAL_SECONDS; ignoring" :: r.2)
  | none => configStep src prev

/-- `AutoRestartPlugin._schedule_restart`: if stopped, do nothing; otherwise
cancel any existing timer and arm a new one for `interval_seconds`. -/
def schedule_restart (st : PluginState) : PluginState × List LogEvent :=
  if st.stopped then
    (st, [])
  else
    ({ st with timer := some st.interval_seconds },
     if st.hasLogger then
       [LogEvent.info ("Next restart scheduled in " ++ toString st.interval_seconds ++ " seconds")]
     else
       [])

/-- `AutoRestartPlugin.on_disable`: set `_stopped`, cancel and clear the
timer, log if a logger is present. -/
def on_disable (st : PluginState) : PluginState × List LogEvent :=
  ({ st with stopped := true, timer := none },
   if st.hasLogger then [LogEvent.info "AutoRestart disabled; timer cancelled"] else [])

/-- The ordered primary candidates of `_do_restart`, paired with what the
server exposes under each name. -/
def primaries (s : Server) : List (String × Option Candidate) :=
  [("dispatch_command", s.dispatch_command),
   ("execute_command", s.execute_command),
   ("console_command", s.console_command),
   ("run_command", s.run_command)]

/-- The ordered fallback candidates of `_do_restart`. -/
def fallbacks (s : Server) : List (String × Option (Option Exc)) :=
  [("shutdown", s.shutdown), ("stop", s.stop)]

/-- The primary probing loop of `_do_restart`.  `Except.ok (some name)`
means `issued = True` via that candidate; `Except.ok none` means the loop
ended with `issued` still `False`; `Except.error e` means exception `e`
escaped the loop (a non-`TypeError` from the one-argument call, which only
`except TypeError` guards, or a non-`Exception` from the two-argument
retry).  The second component is the log emitted inside the loop. -/
def probePrimaryList : List (String × Option Candidate) → Except Exc (Option String) × List LogEvent
  | [] => (Except.ok none, [])
  | (name, cand?) :: rest =>
    match cand? with
    | none => probePrimaryList rest
    | some cand =>
      match cand.oneArg with
      | none =>
        (Except.ok (some name),
         [LogEvent.info ("Issued restart via " ++ name ++ "(\"restart\")")])
      | some Exc.typeError =>
        match cand.twoArg with
        | none =>
          (Except.ok (some name),
           [LogEvent.info ("Issued restart via " ++ name ++ "(server, \"restart\")")])
        | some e =>
          if e.isException then probePrimaryList rest else (Except.error e, [])
      | some e => (Except.error e, [])

/-- The fallback probing loop of `_do_restart`: zero-argument calls, each
guarded by `except Exception: pass`. -/
def probeFallbackList : List (String × Option (Option Exc)) → Except Exc (Option String) × List LogEvent
  | [] => (Except.ok none, [])
  | (name, fn?) :: rest =>
    match fn? with
    | none => probeFallbackList rest
    | some outcome =>
      match outcome with
      | none =>
        (Except.ok (some name),
         [LogEvent.info ("Called server." ++ name ++ "() as fallback restart")])
      | some e =>
        if e.isException then probeFallbackList rest else (Except.error e, [])

/-- The body of `_do_restart`'s outer `try`: probe primaries, then
fallbacks, then emit the no-capability warning when nothing was issued. -/
def attemptBody (server? : Option Server) : Except Exc (Option String) × List LogEvent :=
  match server? with
  | none =>
    (Except.ok none,
     [LogEvent.warning "Could not find a supported API to issue restart; no action taken"])
  | some s =>
    match probePrimaryList (primaries s) with
    | (Except.error e, log) => (Except.error e, log)
    | (Except.ok (some n), log) => (Except.ok (some n), log)
    | (Except.ok none, log1) =>
      match probeFallbackList (fallbacks s) with
      | (Except.error e, log2) => (Except.error e, log1 ++ log2)
      | (Except.ok (some n), log2) => (Except.ok (some n), log1 ++ log2)
      | (Except.ok none, log2) =>
        (Except.ok none,
         log1 ++ log2 ++
           [LogEvent.warning "Could not find a supported API to issue restart; no action taken"])

/-- The outcome of one `_do_restart` call: the state after it, the log it
emitted, and the exception (if any) propagating out of the handler into
the timer thread (only a non-`Exception` fault can). -/
structure TickResult where
  state : PluginState
  log : List LogEvent
  raised : Option Exc
deriving DecidableEq, Repr

/-- `AutoRestartPlugin._do_restart`: return immediately when stopped;
otherwise run the guarded body, catch any `Exception` at the boundary
(logging through `logger.exception`), and in all cases reach
`_schedule_restart` in the `finally` block. -/
def do_restart (st : PluginState) : TickResult :=
  if st.stopped then
    ⟨st, [], none⟩
  else
    let r := attemptBody st.server
    let excLog : List LogEvent :=
      match r.1 with
      | .ok _ => []
      | .error e =>
        if e.isException then
          if st.hasLogger then [LogEvent.exc "Exception while trying to restart:"] else []
        else
          []
    let raised : Option Exc :=
      match r.1 with
      | .ok _ => none
      | .error e => if e.isException then none else some e
    let s2 := schedule_restart st
    ⟨s2.1, r.2 ++ excLog ++ s2.2, raised⟩

/-- `AutoRestartPlugin.on_enable`: bind the server, install a logger, load
the configuration, clear `_stopped`, log the interval and schedule. -/
def on_enable (env : Option String) (server : Server) (st : PluginState) : PluginState × List LogEvent :=
  let st1 := { st with server := some server, hasLogger := true }
  let cfg := load_config env server.cfgSource st1.interval_seconds
  let st2 := { st1 with interval_seconds := cfg.1, stopped := false }
  let enabledLog :=
    [LogEvent.info ("AutoRestart enabled. Interval: " ++ toString cfg.1 ++ " seconds")]
  let s3 := schedule_restart st2
  (s3.1, cfg.2 ++ enabledLog ++ s3.2)

/-! ## Claim theorems -/

/-- Claim C1 (confirmed): for every tick entered while the scheduler is not
disabled — in particular one whose action invocation raises, even an
exception escaping the outer `except Exception` handler — `_do_restart`
reaches `_schedule_restart` via its `finally` block, so the next tick is
armed at the configured interval and the scheduler stays enabled. -/
theorem c1_reschedule_after_exceptional_tick (st : PluginState) (h : st.stopped = false) :
    (do_restart st).state.timer = some st.interval_seconds ∧
    (do_restart st).state.interval_seconds = st.interval_seconds ∧
    (do_restart st).state.stopped = false := by
  simp [do_restart, schedule_restart, h]

/-- The counterexample server of claim C2: `dispatch_command` raises a
non-`TypeError` exception on the single-argument call, while
`execute_command` would succeed. -/
def srvC2 : Server :=
  { dispatch_command := some ⟨some (Exc.error "ValueError"), none⟩
    execute_command := some ⟨none, none⟩
    console_command := none
    run_command := none
    shutdown := none
    stop := none
    cfgSource := CfgSource.got (Cfg.nonDict false) }

/-- An enabled plugin state bound to `srvC2`, used to witness the
reschedule-after-failure conclusion on a tick that raises. -/
def stC1 : PluginState :=
  { server := some srvC2
    hasLogger := true
    interval_seconds := 42
    timer := none
    stopped := false }

/-- Witness for C1: on a concrete enabled state whose only primary
candidate raises a non-`TypeError` exception, the next tick is still
scheduled at the configured 42-second interval. -/
theorem c1_reschedule_witness :
    stC1.stopped = false ∧ (do_restart stC1).state.timer = some 42 :=
  ⟨rfl, (c1_reschedule_after_exceptional_tick stC1 rfl).1⟩

/-- Claim C4 (confirmed): once the scheduler is disabled, a tick handler
entered while disabled returns immediately with no state change, no log
and no propagated fault, and a reschedule attempt is a no-op that arms no
timer. -/
theorem c4_disabled_noop (st : PluginState) (h : st.stopped = true) :
    do_restart st = ⟨st, [], none⟩ ∧ schedule_restart st = (st, []) := by
  constructor <;> simp [do_restart, schedule_restart, h]

/-- Witness for C4 at the initial (never-enabled, hence disabled) state. -/
theorem c4_disabled_noop_witness :
    do_restart initState = ⟨initState, [], none⟩ ∧
    schedule_restart initState = (initState, []) :=
  c4_disabled_noop initState rfl

/-- Claim C9 (confirmed): `on_disable` raises no error (it is total in the
model), always leaves the state stopped with no pending timer — also when
called on a state that was never enabled — and calling it twice in
succession changes nothing the second time. -/
theorem c9_disable_idempotent (st : PluginState) :
    (on_disable st).1.stopped = true ∧
    (on_disable st).1.timer = none ∧
    on_disable (on_disable st).1 = on_disable st := by
  refine ⟨rfl, rfl, ?_⟩
  simp [on_disable]

/-- Counterexample for claim C3: `_load_config` performs no positivity
check — the environment override `"-5"` parses and is accepted verbatim,
so a positive previous interval (the 21600 default) does not stay
positive.  This refutes the claim that a non-positive candidate is
rejected and that `interval_seconds` is always positive afterwards. -/
theorem c3_counterexample :
    ¬ (∀ (env : Option String) (src : CfgSource) (prev : Int),
        0 < prev → 0 < (load_config env src prev).1) := by
  intro h
  have h5 := h (some "-5") (CfgSource.got (Cfg.nonDict false)) 21600 (by norm_num)
  have hv : (load_config (some "-5") (CfgSource.got (Cfg.nonDict false)) 21600).1 = -5 := rfl
  rw [hv] at h5
  exact absurd h5 (by norm_num)

/-- Claim C3 (amended): an unparseable environment candidate is rejected
with a warning and resolution falls through to the config tier with the
previous value retained there by default; a parseable candidate, however,
is accepted verbatim even when non-positive, so `interval_seconds` after
`_load_config` need not be positive. -/
theorem c3_unparseable_rejected_parseable_accepted
    (s : String) (src : CfgSource) (prev : Int) (hs : s ≠ "") :
    (pyParseInt s = none →
      load_config (some s) src prev =
        ((configStep src prev).1,
         LogEvent.warning "Invalid AUTORESTART_INTERVAL_SECONDS; ignoring" ::
           (configStep src prev).2)) ∧
    (∀ n : Int, pyParseInt s = some n → (load_config (some s) src prev).1 = n) := by
  constructor
  · intro hp
    simp [load_config, hs, hp]
  · intro n hp
    simp [load_config, hs, hp]

/-- Witness for the amended C3: the unparseable override `"abc"` is
rejected and the default retained, while the non-positive override `"-5"`
is accepted and yields `interval_seconds = -5`. -/
theorem c3_unparseable_rejected_parseable_accepted_witness :
    (load_config (some "abc") (CfgSource.got (Cfg.nonDict false)) 21600 =
      ((configStep (CfgSource.got (Cfg.nonDict false)) 21600).1,
       LogEvent.warning "Invalid AUTORESTART_INTERVAL_SECONDS; ignoring" ::
         (configStep (CfgSource.got (Cfg.nonDict false)) 21600).2)) ∧
    (load_config (some "-5") (CfgSource.got (Cfg.nonDict false)) 21600).1 = -5 :=
  ⟨(c3_unparseable_rejected_parseable_accepted "abc"
      (CfgSource.got (Cfg.nonDict false)) 21600 (by decide)).1 rfl,
   (c3_unparseable_rejected_parseable_accepted "-5"
      (CfgSource.got (Cfg.nonDict false)) 21600 (by decide)).2 (-5) rfl⟩

/-- Claim C8 (confirmed): a primary candidate whose single-argument call
raises `TypeError` is retried exactly once with the host prepended; when
the retry returns normally, probing stops with success reported via that
candidate's name — independently of every remaining candidate — and, at
the tick level, the attempt reports success via that name whatever the
rest of the server exposes. -/
theorem c8_arity_retry (name : String) (rest : List (String × Option Candidate)) :
    (probePrimaryList ((name, some ⟨some Exc.typeError, none⟩) :: rest) =
      (Except.ok (some name),
       [LogEvent.info ("Issued restart via " ++ name ++ "(server, \"restart\")")])) ∧
    (∀ s : Server, s.dispatch_command = some ⟨some Exc.typeError, none⟩ →
      (attemptBody (some s)).1 = Except.ok (some "dispatch_command")) := by
  constructor
  · rfl
  · intro s h
    simp [attemptBody, primaries, probePrimaryList, h]

/-- Witness for C8, scenario D: `dispatch_command` raises an arity error
on the one-argument call and the host-prepended retry succeeds; the tick
reports success via `dispatch_command`. -/
theorem c8_arity_retry_witness :
    (attemptBody (some { srvC2 with
        dispatch_command := some ⟨some Exc.typeError, none⟩ })).1 =
      Except.ok (some "dispatch_command") :=
  (c8_arity_retry "dispatch_command" []).2
    { srvC2 with dispatch_command := some ⟨some Exc.typeError, none⟩ } rfl

/-- Counterexample for claim C2: on `srvC2`, whose `dispatch_command`
raises a non-`TypeError` exception on the single-argument call, probing
does not continue to `execute_command` (which on its own succeeds): the
exception escapes the candidate loop uncaught, so the attempt ends in the
scheduler-boundary error rather than in success via the next candidate. -/
theorem c2_counterexample :
    (attemptBody (some srvC2)).1 = Except.error (Exc.error "ValueError") ∧
    (attemptBody (some srvC2)).1 ≠ Except.ok (some "execute_command") ∧
    (attemptBody (some { srvC2 with dispatch_command := none })).1 =
      Except.ok (some "execute_command") := by
  refine ⟨rfl, ?_, rfl⟩
  intro h
  have heq : (Except.error (Exc.error "ValueError") : Except Exc (Option String)) =
      Except.ok (some "execute_command") := h
  exact Except.noConfusion heq

/-- Claim C2 (amended): per-candidate isolation holds only for the
host-prepended retry and for fallback calls — an `Exception` raised there
is swallowed and probing continues with the next candidate — whereas a
non-`TypeError` exception raised by a primary candidate's single-argument
call escapes the loop (only `except TypeError` guards it) and aborts
probing of the remaining candidates for that tick. -/
theorem c2_per_candidate_isolation
    (name : String) (rest : List (String × Option Candidate))
    (fr : List (String × Option (Option Exc)))
    (e : Exc) (tw : Option Exc) :
    (e.isException = true →
      probePrimaryList ((name, some ⟨some Exc.typeError, some e⟩) :: rest) =
        probePrimaryList rest) ∧
    (e ≠ Exc.typeError →
      probePrimaryList ((name, some ⟨some e, tw⟩) :: rest) = (Except.error e, [])) ∧
    (e.isException = true →
      probeFallbackList ((name, some (some e)) :: fr) = probeFallbackList fr) := by
  refine ⟨?_, ?_, ?_⟩
  · intro h
    simp [probePrimaryList, h]
  · intro h
    cases e with
    | typeError => exact absurd rfl h
    | error m => rfl
    | fatal m => rfl
  · intro h
    simp [probeFallbackList, h]

/-- Witness for the amended C2 at concrete inputs: an `Exception` from the
two-argument retry or from a fallback call lets probing continue, while a
non-`TypeError` from the single-argument call aborts with that error. -/
theorem c2_per_candidate_isolation_witness :
    (probePrimaryList [("dispatch_command", some ⟨some Exc.typeError, some (Exc.error "x")⟩)] =
      probePrimaryList []) ∧
    (probePrimaryList [("dispatch_command", some ⟨some (Exc.error "x"), none⟩)] =
      (Except.error (Exc.error "x"), [])) ∧
    (probeFallbackList [("shutdown", some (some (Exc.error "x")))] = probeFallbackList []) :=
  ⟨(c2_per_candidate_isolation "dispatch_command" [] [] (Exc.error "x") none).1 rfl,
   (c2_per_candidate_isolation "dispatch_command" [] [] (Exc.error "x") none).2.1
     (by intro h; exact Exc.noConfusion h),
   (c2_per_candidate_isolation "shutdown" [] [] (Exc.error "x") none).2.2 rfl⟩

/-- A server exposing no restart capability whose config holds a 5-second
interval under the seconds key; used for the C5 counterexample. -/
def srvCfg5 : Server :=
  { dispatch_command := none
    execute_command := none
    console_command := none
    run_command := none
    shutdown := none
    stop := none
    cfgSource := CfgSource.got (Cfg.dict (some (PyPrim.intV 5)) none false) }

/-- An already-enabled plugin state holding a 100-second interval. -/
def stEnabled : PluginState :=
  { server := some srvCfg5
    hasLogger := true
    interval_seconds := 100
    timer := some 100
    stopped := false }

/-- Counterexample for claim C5: `on_enable` has no already-enabled guard.
Called on an already-enabled state (interval 100), it re-resolves the
configuration (interval becomes 5), arms a new timer, and logs no warning
— so it is neither a no-op nor warned about. -/
theorem c5_counterexample :
    (on_enable none srvCfg5 stEnabled).1.interval_seconds = 5 ∧
    (on_enable none srvCfg5 stEnabled).1 ≠ stEnabled ∧
    (on_enable none srvCfg5 stEnabled).1.timer = some 5 ∧
    ((on_enable none srvCfg5 stEnabled).2.any LogEvent.isWarning) = false := by
  refine ⟨rfl, ?_, rfl, rfl⟩
  intro h
  have h5 : (on_enable none srvCfg5 stEnabled).1.interval_seconds = 5 := rfl
  rw [h] at h5
  have : (100 : Int) = 5 := h5
  norm_num at this

/-- Claim C5 (amended): calling `on_enable` while already enabled raises
no error but is not a guarded no-op: it re-runs the full enable path —
configuration is re-resolved from the current sources, the state stays
enabled, and a fresh timer is armed for the newly resolved interval
(replacing the pending one, so at most one timer remains). -/
theorem c5_reenable_runs_full_enable
    (st : PluginState) (server : Server) (env : Option String)
    (_h : st.stopped = false) :
    (on_enable env server st).1.stopped = false ∧
    (on_enable env server st).1.interval_seconds =
      (load_config env server.cfgSource st.interval_seconds).1 ∧
    (on_enable env server st).1.timer =
      some (load_config env server.cfgSource st.interval_seconds).1 := by
  refine ⟨rfl, rfl, ?_⟩
  simp [on_enable, schedule_restart]

/-- Witness for the amended C5 on the already-enabled 100-second state:
re-enabling resolves the interval to 5 and arms a 5-second timer. -/
theorem c5_reenable_runs_full_enable_witness :
    (on_enable none srvCfg5 stEnabled).1.stopped = false ∧
    (on_enable none srvCfg5 stEnabled).1.interval_seconds =
      (load_config none srvCfg5.cfgSource stEnabled.interval_seconds).1 ∧
    (on_enable none srvCfg5 stEnabled).1.timer =
      some (load_config none srvCfg5.cfgSource stEnabled.interval_seconds).1 :=
  c5_reenable_runs_full_enable stEnabled srvCfg5 none rfl

/-- Claim C6 (confirmed): resolution priority — a parseable environment
override wins outright; otherwise a dict config is consulted with the
seconds key beating the hours key (hours multiplied by 3600); otherwise
the previous value — the built-in 21600-second default on first enable —
remains; and in scenario C (override `"abc"`, config hours = 2) the
resolved interval is 7200. -/
theorem c6_resolution_priority :
    (∀ (s : String) (n : Int) (src : CfgSource) (prev : Int),
      pyParseInt s = some n → (load_config (some s) src prev).1 = n) ∧
    (∀ (sv : PyPrim) (n : Int) (hv : Option PyPrim) (o : Bool) (prev : Int),
      pyIntOf sv = some n →
      (load_config none (CfgSource.got (Cfg.dict (some sv) hv o)) prev).1 = n) ∧
    (∀ (hv : PyPrim) (n : Int) (o : Bool) (prev : Int),
      pyIntOf hv = some n →
      (load_config none (CfgSource.got (Cfg.dict none (some hv) o)) prev).1 = n * 3600) ∧
    ((load_config none (CfgSource.got (Cfg.nonDict false)) DEFAULT_SECONDS).1 =
        DEFAULT_SECONDS ∧
      DEFAULT_SECONDS = 21600) ∧
    (load_config (some "abc")
        (CfgSource.got (Cfg.dict none (some (PyPrim.intV 2)) false)) DEFAULT_SECONDS).1 =
      7200 := by
  refine ⟨?_, ?_, ?_, ⟨rfl, rfl⟩, rfl⟩
  · intro s n src prev hp
    by_cases hs : s = ""
    · subst hs
      have hnone : pyParseInt "" = none := rfl
      rw [hnone] at hp
      exact Option.noConfusion hp
    · simp [load_config, hs, hp]
  · intro sv n hv o prev hp
    simp [load_config, configStep, Cfg.truthy, hp]
  · intro hv n o prev hp
    simp [load_config, configStep, Cfg.truthy, hp]

/-- Witness for C6: a parseable override `"300"` beats a seconds config of
7; the seconds key (7) beats the hours key (2) when both are present; an
hours-only config of 2 resolves to 7200. -/
theorem c6_resolution_priority_witness :
    (load_config (some "300")
        (CfgSource.got (Cfg.dict (some (PyPrim.intV 7)) none false)) 21600).1 = 300 ∧
    (load_config none
        (CfgSource.got (Cfg.dict (some (PyPrim.intV 7)) (some (PyPrim.intV 2)) false))
        21600).1 = 7 ∧
    (load_config none
        (CfgSource.got (Cfg.dict none (some (PyPrim.intV 2)) false)) 21600).1 = 2 * 3600 :=
  ⟨c6_resolution_priority.1 "300" 300
      (CfgSource.got (Cfg.dict (some (PyPrim.intV 7)) none false)) 21600 rfl,
   c6_resolution_priority.2.1 (PyPrim.intV 7) 7 (some (PyPrim.intV 2)) false 21600 rfl,
   c6_resolution_priority.2.2.1 (PyPrim.intV 2) 2 false 21600 rfl⟩

/-- Claim C7 (confirmed): when no primary candidate succeeds (and none
raises past the loop), the zero-argument fallbacks are probed in the order
`shutdown`, `stop`; the first that exists and returns without error is
reported as the succeeding operation (an `Exception` from `shutdown` moves
probing on to `stop`); and when nothing succeeds the tick logs the
no-capability warning and the next tick is still armed. -/
theorem c7_fallback_probing (s : Server) (st : PluginState)
    (hp : probePrimaryList (primaries s) = (Except.ok none, []))
    (hstop : st.stopped = false) (_hsrv : st.server = some s) :
    (s.shutdown = some none → (attemptBody (some s)).1 = Except.ok (some "shutdown")) ∧
    (s.shutdown = none → s.stop = some none →
      (attemptBody (some s)).1 = Except.ok (some "stop")) ∧
    (∀ e : Exc, s.shutdown = some (some e) → e.isException = true → s.stop = some none →
      (attemptBody (some s)).1 = Except.ok (some "stop")) ∧
    ((attemptBody (some s)).1 = Except.ok none →
      LogEvent.warning "Could not find a supported API to issue restart; no action taken" ∈
        (attemptBody (some s)).2 ∧
      (do_restart st).state.timer = some st.interval_seconds) := by
  refine ⟨?_, ?_, ?_, ?_⟩
  · intro h
    simp [attemptBody, hp, fallbacks, probeFallbackList, h]
  · intro h1 h2
    simp [attemptBody, hp, fallbacks, probeFallbackList, h1, h2]
  · intro e h1 he h2
    simp [attemptBody, hp, fallbacks, probeFallbackList, h1, he, h2]
  · intro hok
    refine ⟨?_, ?_⟩
    · rcases hF : probeFallbackList (fallbacks s) with ⟨r2, l2⟩
      cases r2 with
      | error e => simp [attemptBody, hp, hF] at hok
      | ok ores =>
        cases ores with
        | some n => simp [attemptBody, hp, hF] at hok
        | none => simp [attemptBody, hp, hF]
    · simp [do_restart, hstop, schedule_restart]

/-- A concrete enabled state on a server with no primary candidates whose
only fallback is a working `shutdown`. -/
def stFallback : PluginState :=
  { server := some { srvCfg5 with shutdown := some none }
    hasLogger := true
    interval_seconds := 30
    timer := none
    stopped := false }

/-- Witness for C7: on a server exposing no primary candidate and a
working `shutdown`, the tick reports success via `shutdown`. -/
theorem c7_fallback_probing_witness :
    (attemptBody (some { srvCfg5 with shutdown := some none })).1 =
      Except.ok (some "shutdown") :=
  (c7_fallback_probing { srvCfg5 with shutdown := some none } stFallback
      rfl rfl rfl).1 rfl

/-- The env-override rejection warning of `_load_config` never comes out of
the server-config tier (its warning text is the config-read one). -/
theorem invalid_env_warning_not_in_configStep (src : CfgSource) (prev : Int) :
    LogEvent.warning "Invalid AUTORESTART_INTERVAL_SECONDS; ignoring" ∉
      (configStep src prev).2 := by
  cases src with
  | raises m => simp [configStep]
  | got c =>
    cases c with
    | nonDict t => cases t <;> simp [configStep, Cfg.truthy]
    | dict sv hv o =>
      cases sv with
      | some v =>
        cases hpi : pyIntOf v <;> simp [configStep, Cfg.truthy, hpi]
      | none =>
        cases hv with
        | some v =>
          cases hpi : pyIntOf v <;> simp [configStep, Cfg.truthy, hpi]
        | none => cases o <;> simp [configStep, Cfg.truthy]

/-- Claim C10 (confirmed): an empty-string override is falsy for `if env:`
and so is treated exactly as an absent override — resolution goes to the
config tier with no invalid-value warning anywhere in the emitted log —
whereas a non-empty unparseable override is warned about and then falls
through to the same tier. -/
theorem c10_empty_override_treated_as_absent (src : CfgSource) (prev : Int) :
    load_config (some "") src prev = load_config none src prev ∧
    LogEvent.warning "Invalid AUTORESTART_INTERVAL_SECONDS; ignoring" ∉
      (load_config (some "") src prev).2 ∧
    (∀ s : String, s ≠ "" → pyParseInt s = none →
      (load_config (some s) src prev).2 =
        LogEvent.warning "Invalid AUTORESTART_INTERVAL_SECONDS; ignoring" ::
          (configStep src prev).2) := by
  refine ⟨rfl, ?_, ?_⟩
  · exact invalid_env_warning_not_in_configStep src prev
  · intro s hs hp
    simp [load_config, hs, hp]

/-- Witness for C10: with an empty override the resolution equals the
absent-override resolution, and with the unparseable override `"abc"` the
invalid-value warning is prepended before falling through. -/
theorem c10_empty_override_witness :
    load_config (some "") (CfgSource.got (Cfg.nonDict false)) 21600 =
      load_config none (CfgSource.got (Cfg.nonDict false)) 21600 ∧
    (load_config (some "abc") (CfgSource.got (Cfg.nonDict false)) 21600).2 =
      LogEvent.warning "Invalid AUTORESTART_INTERVAL_SECONDS; ignoring" ::
        (configStep (CfgSource.got (Cfg.nonDict false)) 21600).2 :=
  ⟨(c10_empty_override_treated_as_absent (CfgSource.got (Cfg.nonDict false)) 21600).1,
   (c10_empty_override_treated_as_absent (CfgSource.got (Cfg.nonDict false)) 21600).2.2
     "abc" (by decide) rfl⟩
